import Mathlib

/-!
Verification of the DreaminaMonitor account-pool core: a shallow embedding of
the account data model (src/database.py), the configuration (src/config.py),
the account selector, lifecycle updater and response classifier
(src/proxy.py), the reconciliation loops (src/main.py) and the registration
region helpers (src/api.py, src/main.py), together with theorems settling the
specification's claims about them.
-/

namespace Dreamina

/-- Account row, embedded from `Account` in src/database.py (lines 17-42).
Integer columns are modelled as `ℤ`, the float column `points` as `ℚ`,
nullable columns as `Option`, and timestamps as integers (seconds). -/
structure Account where
  id : ℤ
  email : String
  password : String
  region : String
  session_id : Option String
  points : ℚ
  session_id_updated_at : Option ℤ
  jimeng_4_0_count : ℤ
  jimeng_4_1_count : ℤ
  nanobanana_count : ℤ
  nanobananapro_count : ℤ
  video_3_0_count : ℤ
  error_count : ℤ
  is_banned : Bool
  ban_until : Option ℤ
  deriving Repr, DecidableEq

/-- Configuration, embedded from `Settings` in src/config.py (lines 9-33).
Note: this class has no ban-duration field of any kind. -/
structure Settings where
  ADMIN_PASSWORD : String
  DATABASE_URL : String
  UPSTREAM_BASE_URL : String
  PORT : ℤ
  HOST : String
  PROXY_TIMEOUT : ℤ
  LIMIT_JIMENG_4_0 : ℤ
  LIMIT_JIMENG_4_1 : ℤ
  LIMIT_NANOBANANA : ℤ
  LIMIT_NANOBANANAPRO : ℤ
  LIMIT_VIDEO_3_0 : ℤ
  REGISTER_API_URL : String
  REGISTER_API_KEY : String
  REGISTER_MAIL_TYPE : String
  DEFAULT_POINTS : ℚ
  RESET_COUNTS_TIME : String
  deriving Repr, DecidableEq

/-- The per-field defaults of `Settings` in src/config.py. -/
def default_settings : Settings where
  ADMIN_PASSWORD := "admin123"
  DATABASE_URL := "sqlite+aiosqlite:///./dreamina.db"
  UPSTREAM_BASE_URL := "https://api.dreamina.com"
  PORT := 5100
  HOST := "0.0.0.0"
  PROXY_TIMEOUT := 60
  LIMIT_JIMENG_4_0 := 1000
  LIMIT_JIMENG_4_1 := 1000
  LIMIT_NANOBANANA := 1000
  LIMIT_NANOBANANAPRO := 1000
  LIMIT_VIDEO_3_0 := 1000
  REGISTER_API_URL := "http://localhost:8000"
  REGISTER_API_KEY := ""
  REGISTER_MAIL_TYPE := "moemail"
  DEFAULT_POINTS := 120
  RESET_COUNTS_TIME := "00:00"

/-- Python `s.startswith(p)`: character-level prefix test. -/
def str_startswith (s p : String) : Bool :=
  p.data.isPrefixOf s.data

/-- Python `s.endswith(p)`: character-level suffix test. -/
def str_endswith (s p : String) : Bool :=
  p.data.isSuffixOf s.data

/-- Python `s[n:]`: drop the first `n` characters. -/
def str_drop (s : String) (n : ℕ) : String :=
  ⟨s.data.drop n⟩

/-- SQL comparison `col < v` on a nullable column: a NULL compares as
unknown, so the row is not matched.  Embeds the semantics of
`Account.ban_until < now` in src/proxy.py line 150. -/
def sqlLt (x : Option ℤ) (y : ℤ) : Bool :=
  match x with
  | none => false
  | some t => decide (t < y)

/-- SQL comparison `col <= v` on a nullable column (NULL matches nothing).
Embeds `Account.ban_until <= now` in src/main.py line 38. -/
def sqlLe (x : Option ℤ) (y : ℤ) : Bool :=
  match x with
  | none => false
  | some t => decide (t ≤ y)

/-- The `model_field_map` dict of `get_valid_account`
(src/proxy.py lines 130-136): model name to (counter column, limit). -/
def model_field_map (s : Settings) : List (String × (Account → ℤ) × ℤ) :=
  [ ("jimeng-4.0", (fun a => a.jimeng_4_0_count, s.LIMIT_JIMENG_4_0)),
    ("jimeng-4.1", (fun a => a.jimeng_4_1_count, s.LIMIT_JIMENG_4_1)),
    ("nanobanana", (fun a => a.nanobanana_count, s.LIMIT_NANOBANANA)),
    ("nanobananapro", (fun a => a.nanobananapro_count, s.LIMIT_NANOBANANAPRO)),
    ("video-3.0", (fun a => a.video_3_0_count, s.LIMIT_VIDEO_3_0)) ]

/-- `usage_condition` of `get_valid_account` (src/proxy.py lines 138-141):
for a known model the per-model counter must be below its limit; an
unknown model name imposes no usage condition. -/
def usage_condition (s : Settings) (model_name : String) (a : Account) : Bool :=
  match (model_field_map s).lookup model_name with
  | some fl => decide (fl.1 a < fl.2)
  | none => true

/-- `points_condition` of `get_valid_account` (src/proxy.py lines 143-146):
models other than nanobanana / nanobananapro require `points > 0`. -/
def points_condition (model_name : String) (a : Account) : Bool :=
  if (["nanobanana", "nanobananapro"] : List String).contains model_name then
    true
  else
    decide (0 < a.points)

/-- The WHERE clause of `get_valid_account` (src/proxy.py lines 148-155):
`and_(or_(is_banned == False, ban_until < now), session_id.isnot(None),
usage_condition, points_condition)`. -/
def is_valid_account (s : Settings) (model_name : String) (now : ℤ)
    (a : Account) : Bool :=
  ((!a.is_banned) || sqlLt a.ban_until now) &&
  a.session_id.isSome &&
  usage_condition s model_name a &&
  points_condition model_name a

/-- `get_valid_account` (src/proxy.py lines 115-168): filter the account
table by `is_valid_account`, advance the shared round-robin index modulo the
eligible-set size and return the account at the new index together with the
new index.  Returns `none` when no account is eligible. -/
def get_valid_account (s : Settings) (model_name : String) (now : ℤ)
    (accounts : List Account) (rr : ℕ) : Option (Account × ℕ) :=
  let valid := accounts.filter (is_valid_account s model_name now)
  if h : valid.length = 0 then
    none
  else
    let idx := (rr + 1) % valid.length
    some (valid.get ⟨idx, Nat.mod_lt _ (Nat.pos_of_ne_zero h)⟩, idx)

/-- `n` consecutive calls to `get_valid_account` over a fixed, unmutated
account table, threading the shared round-robin index between calls
(src/proxy.py lines 113, 166-168); collects the selected accounts. -/
def select_n (s : Settings) (model_name : String) (now : ℤ)
    (accounts : List Account) : ℕ → ℕ → List Account
  | _, 0 => []
  | rr, n + 1 =>
    match get_valid_account s model_name now accounts rr with
    | none => []
    | some ai => ai.1 :: select_n s model_name now accounts ai.2 n

/-- An upstream HTTP response as seen by `proxy_request`
(src/proxy.py lines 288-320): status code, body bytes and headers. -/
structure UpstreamResponse where
  status : ℕ
  body : List ℕ
  headers : List (String × String)
  deriving Repr, DecidableEq

/-- The side effect `proxy_request` schedules after classifying the
upstream status (src/proxy.py lines 300-314). -/
inductive ProxyEffect where
  | banAccount : ProxyEffect
  | incrementUsage : ProxyEffect
  | noEffect : ProxyEffect
  deriving Repr, DecidableEq

/-- The response produced by `Response(content=response.content,
status_code=response.status_code, headers=dict(response.headers))`
(src/proxy.py lines 305-309 and 316-320): a field-by-field copy. -/
def passthrough_response (r : UpstreamResponse) : UpstreamResponse where
  status := r.status
  body := r.body
  headers := r.headers

/-- Step 6 of `proxy_request` (src/proxy.py lines 300-320): statuses
429/500/524 pass the response through and schedule a ban; statuses below
400 pass it through and schedule a usage increment; every other status
passes it through with no side effect. -/
def handle_upstream_response (r : UpstreamResponse) :
    UpstreamResponse × ProxyEffect :=
  if ([429, 500, 524] : List ℕ).contains r.status then
    (passthrough_response r, .banAccount)
  else if r.status < 400 then
    (passthrough_response r, .incrementUsage)
  else
    (passthrough_response r, .noEffect)

/-- `ban_account_temp` (src/proxy.py lines 200-212), acting on an account
that still exists: set `is_banned`, set `ban_until = now + hours`, and
increment `error_count`.  Time is in seconds, so `timedelta(hours=hours)`
is `hours * 3600`.  The `hours` parameter defaults to the literal `4`
exactly as in the Python signature `hours: int = 4`; the function reads
no configuration. -/
def ban_account_temp (now : ℤ) (a : Account) (hours : ℤ := 4) : Account :=
  { a with
    is_banned := true
    ban_until := some (now + hours * 3600)
    error_count := a.error_count + 1 }

/-- The ban `proxy_request` schedules on a 429/500/524 response:
`background_tasks.add_task(ban_account_temp, account.id)`
(src/proxy.py line 303) passes no duration, so the default applies. -/
def proxy_scheduled_ban (now : ℤ) (a : Account) : Account :=
  ban_account_temp now a

/-- Python truthiness of an optional string (`if account.session_id and
account.region:` treats both None and the empty string as false). -/
def optStrTruthy : Option String → Bool
  | none => false
  | some s => decide (s ≠ "")

/-- `update_account_usage` (src/proxy.py lines 170-198), acting on an
account that still exists: increment the counter matching `model_name`
(no counter changes for an unknown name); then, when both `session_id` and
`region` are truthy, the external credit lookup runs and, when it returns a
value, overwrites `points`.  The lookup's outcome is the `credit`
parameter (`none` for CN region, lookup failure, or any error). -/
def update_account_usage (model_name : String) (credit : Option ℚ)
    (a : Account) : Account :=
  let a1 :=
    if model_name = "jimeng-4.0" then
      { a with jimeng_4_0_count := a.jimeng_4_0_count + 1 }
    else if model_name = "jimeng-4.1" then
      { a with jimeng_4_1_count := a.jimeng_4_1_count + 1 }
    else if model_name = "nanobanana" then
      { a with nanobanana_count := a.nanobanana_count + 1 }
    else if model_name = "nanobananapro" then
      { a with nanobananapro_count := a.nanobananapro_count + 1 }
    else if model_name = "video-3.0" then
      { a with video_3_0_count := a.video_3_0_count + 1 }
    else
      a
  if optStrTruthy a1.session_id && decide (a1.region ≠ "") then
    match credit with
    | some c => { a1 with points := c }
    | none => a1
  else
    a1

/-- Per-account effect of one pass of `unban_accounts_task`
(src/main.py lines 28-55): accounts matching `is_banned == True AND
ban_until <= now` get both ban fields cleared; every other account is
left untouched. -/
def unban_update (now : ℤ) (a : Account) : Account :=
  if a.is_banned && sqlLe a.ban_until now then
    { a with is_banned := false, ban_until := none }
  else
    a

/-- One pass of the unban sweep over the whole account table
(src/main.py lines 35-47). -/
def unban_sweep (now : ℤ) (accounts : List Account) : List Account :=
  accounts.map (unban_update now)

/-- A wall-clock instant as `reset_usage_counts_task` observes it
(src/main.py lines 159-166): `now.date()` is `day`, plus `now.hour` and
`now.minute`. -/
structure ClockTime where
  day : ℤ
  hour : ℕ
  minute : ℕ
  deriving Repr, DecidableEq

/-- The column names of the `accounts` table, in declaration order
(src/database.py lines 20-42). -/
def account_columns : List String :=
  [ "id", "email", "password", "region", "session_id", "points",
    "session_id_updated_at", "created_at", "updated_at",
    "jimeng_4_0_count", "jimeng_4_1_count", "nanobanana_count",
    "nanobananapro_count", "video_3_0_count",
    "error_count", "is_banned", "ban_until" ]

/-- The dynamically computed reset field list of `reset_usage_counts_task`
(src/main.py lines 173-176): every column whose name ends in `_count`,
excluding `error_count`. -/
def count_fields : List String :=
  account_columns.filter
    (fun n => str_endswith n "_count" && decide (n ≠ "error_count"))

/-- `setattr(account, field, 0)` for a counter column name
(src/main.py line 180); any other name leaves the account unchanged. -/
def set_count_zero (a : Account) (f : String) : Account :=
  if f = "jimeng_4_0_count" then { a with jimeng_4_0_count := 0 }
  else if f = "jimeng_4_1_count" then { a with jimeng_4_1_count := 0 }
  else if f = "nanobanana_count" then { a with nanobanana_count := 0 }
  else if f = "nanobananapro_count" then { a with nanobananapro_count := 0 }
  else if f = "video_3_0_count" then { a with video_3_0_count := 0 }
  else if f = "error_count" then { a with error_count := 0 }
  else a

/-- The per-account effect of a firing reset: zero every field named in
`count_fields` (src/main.py lines 178-180). -/
def zero_usage_counts (a : Account) : Account :=
  count_fields.foldl set_count_zero a

/-- The firing condition of `reset_usage_counts_task` (src/main.py lines
164-166): the current hour and minute equal the configured reset time and
the tracked `last_reset_date` differs from today's date. -/
def reset_condition (reset_hour reset_minute : ℕ) (last : Option ℤ)
    (now : ClockTime) : Bool :=
  decide (now.hour = reset_hour) && decide (now.minute = reset_minute) &&
  decide (last ≠ some now.day)

/-- One iteration of the `reset_usage_counts_task` loop body
(src/main.py lines 158-187) on state `(last_reset_date, accounts)`:
when the condition fires, zero the counter fields of every account and
record today's date; otherwise change nothing. -/
def reset_step (reset_hour reset_minute : ℕ) (last : Option ℤ)
    (now : ClockTime) (accounts : List Account) :
    Option ℤ × List Account :=
  if reset_condition reset_hour reset_minute last now then
    (some now.day, accounts.map zero_usage_counts)
  else
    (last, accounts)

/-- The firing trace of successive loop iterations: each check carries the
reset time read from live configuration at that iteration together with
the observed clock, and threads `last_reset_date` exactly as
`reset_step` does. -/
def reset_fires (last : Option ℤ) : List (ℕ × ℕ × ClockTime) → List Bool
  | [] => []
  | c :: cs =>
    let fire := reset_condition c.1 c.2.1 last c.2.2
    fire :: reset_fires (if fire then some c.2.2.day else last) cs

namespace ApiMod

/-- `_get_region_from_session_id` in src/api.py (lines 291-303): recognized
prefixes us- / hk- / jp- / sg-, defaulting to "us". -/
def get_region_from_session_id (session_id : String) : String :=
  if str_startswith session_id "us-" then "us"
  else if str_startswith session_id "hk-" then "hk"
  else if str_startswith session_id "jp-" then "jp"
  else if str_startswith session_id "sg-" then "sg"
  else "us"

/-- `_strip_region_prefix` in src/api.py (lines 305-310): drop the first
matching prefix among us- / hk- / jp- / sg-, else return unchanged. -/
def strip_region (session_id : String) : String :=
  if str_startswith session_id "us-" then str_drop session_id "us-".length
  else if str_startswith session_id "hk-" then str_drop session_id "hk-".length
  else if str_startswith session_id "jp-" then str_drop session_id "jp-".length
  else if str_startswith session_id "sg-" then str_drop session_id "sg-".length
  else session_id

end ApiMod

namespace MainMod

/-- `_get_region_from_session_id` in src/main.py (lines 137-145), used by
the autonomous registration loop and the stale-session refresh: recognized
prefixes us- / eu- / asia-, defaulting to "us". -/
def get_region_from_session_id (session_id : String) : String :=
  if str_startswith session_id "us-" then "us"
  else if str_startswith session_id "eu-" then "eu"
  else if str_startswith session_id "asia-" then "asia"
  else "us"

/-- `_strip_region_prefix` in src/main.py (lines 147-152): drop the first
matching prefix among us- / eu- / asia-, else return unchanged. -/
def strip_region (session_id : String) : String :=
  if str_startswith session_id "us-" then str_drop session_id "us-".length
  else if str_startswith session_id "eu-" then str_drop session_id "eu-".length
  else if str_startswith session_id "asia-" then str_drop session_id "asia-".length
  else session_id

end MainMod

/-- The account stored by the on-demand registration endpoint
`register_account` when polling reaches `status == "completed"`
(src/api.py lines 360-390): region derived by src/api.py's helper, the
prefix stripped from the stored `session_id`, default points from
configuration, `session_id_updated_at` freshly set.  The numeric id is
assigned by the database; counters and ban state take their column
defaults (src/database.py lines 33-42). -/
def api_register_completed_account (s : Settings) (now : ℤ)
    (email password session_id : String) : Account where
  id := 0
  email := email
  password := password
  region := ApiMod.get_region_from_session_id session_id
  session_id := some (ApiMod.strip_region session_id)
  points := s.DEFAULT_POINTS
  session_id_updated_at := some now
  jimeng_4_0_count := 0
  jimeng_4_1_count := 0
  nanobanana_count := 0
  nanobananapro_count := 0
  video_3_0_count := 0
  error_count := 0
  is_banned := false
  ban_until := none

/-- The account stored by the autonomous registration loop
`auto_register_task` when polling reaches `status == "completed"`
(src/main.py lines 258-291): identical to the on-demand path except that
region derivation and prefix stripping use src/main.py's own helper
functions, whose recognized prefix set is us- / eu- / asia-. -/
def main_register_completed_account (s : Settings) (now : ℤ)
    (email password session_id : String) : Account where
  id := 0
  email := email
  password := password
  region := MainMod.get_region_from_session_id session_id
  session_id := some (MainMod.strip_region session_id)
  points := s.DEFAULT_POINTS
  session_id_updated_at := some now
  jimeng_4_0_count := 0
  jimeng_4_1_count := 0
  nanobanana_count := 0
  nanobananapro_count := 0
  video_3_0_count := 0
  error_count := 0
  is_banned := false
  ban_until := none

/-! ## Shared lemmas and concrete fixtures -/

/-- A concrete baseline account for concrete instantiations. -/
def account0 : Account where
  id := 1
  email := "a@example.com"
  password := "pw"
  region := "us"
  session_id := some "sid0"
  points := 1
  session_id_updated_at := none
  jimeng_4_0_count := 0
  jimeng_4_1_count := 0
  nanobanana_count := 0
  nanobananapro_count := 0
  video_3_0_count := 0
  error_count := 0
  is_banned := false
  ban_until := none

/-- Splitting the selector's WHERE clause into its four conjuncts. -/
theorem is_valid_account_eq_true {s : Settings} {m : String} {now : ℤ}
    {a : Account} :
    is_valid_account s m now a = true ↔
      ((!a.is_banned) || sqlLt a.ban_until now) = true ∧
      a.session_id.isSome = true ∧
      usage_condition s m a = true ∧
      points_condition m a = true := by
  simp [is_valid_account, Bool.and_eq_true, and_assoc]

/-- Every account `get_valid_account` returns comes from the filtered
eligible set. -/
theorem get_valid_account_mem {s : Settings} {m : String} {now : ℤ}
    {accounts : List Account} {rr : ℕ} {a : Account} {i : ℕ}
    (h : get_valid_account s m now accounts rr = some (a, i)) :
    a ∈ accounts.filter (is_valid_account s m now) := by
  simp only [get_valid_account] at h
  split at h
  · exact absurd h (by simp)
  · simp only [Option.some.injEq, Prod.mk.injEq] at h
    rw [← h.1]
    exact List.get_mem _ _ _

/-- Every account `get_valid_account` returns satisfies
`is_valid_account`. -/
theorem get_valid_account_is_valid {s : Settings} {m : String} {now : ℤ}
    {accounts : List Account} {rr : ℕ} {a : Account} {i : ℕ}
    (h : get_valid_account s m now accounts rr = some (a, i)) :
    is_valid_account s m now a = true :=
  (List.mem_filter.mp (get_valid_account_mem h)).2

/-- On a one-account table whose account is eligible, `get_valid_account`
returns that account. -/
theorem get_valid_account_singleton {s : Settings} {m : String} {now : ℤ}
    {a : Account} (rr : ℕ) (h : is_valid_account s m now a = true) :
    get_valid_account s m now [a] rr = some (a, 0) := by
  unfold get_valid_account
  simp [h, Nat.mod_one]

/-! ## Claim C1 -/

/-- Settings of end-to-end scenario A: the nanobanana limit is 60. -/
def scenarioA_settings : Settings :=
  { default_settings with LIMIT_NANOBANANA := 60 }

/-- The account of end-to-end scenario A: `nanobanana_count = 59`,
`points = 0`, otherwise healthy. -/
def scenarioA_account : Account :=
  { account0 with nanobanana_count := 59, points := 0 }

/-- C1: for model names nanobanana and nanobananapro the selector's points
filter always passes, so `points = 0` does not exclude an account; for
every other model name (known or unknown) any account the selector returns
has `points > 0`; concretely, scenario A's account (59 of 60 nanobanana
uses, zero points) passes the filter for "nanobanana" and fails it for
"jimeng-4.0". -/
theorem points_exemption_C1 :
    (∀ (m : String) (a : Account),
        m = "nanobanana" ∨ m = "nanobananapro" →
        points_condition m a = true) ∧
    (∀ (s : Settings) (m : String) (now : ℤ) (accounts : List Account)
        (rr : ℕ) (a : Account) (i : ℕ),
        m ≠ "nanobanana" → m ≠ "nanobananapro" →
        get_valid_account s m now accounts rr = some (a, i) →
        0 < a.points) ∧
    is_valid_account scenarioA_settings "nanobanana" 0 scenarioA_account
      = true ∧
    is_valid_account scenarioA_settings "jimeng-4.0" 0 scenarioA_account
      = false := by
  refine ⟨?_, ?_, by decide, by decide⟩
  · rintro m a (rfl | rfl) <;> simp [points_condition]
  · intro s m now accounts rr a i h1 h2 hget
    have hval := get_valid_account_is_valid hget
    have hp := (is_valid_account_eq_true.mp hval).2.2.2
    unfold points_condition at hp
    rw [if_neg] at hp
    · exact of_decide_eq_true hp
    · simp only [List.contains_eq_any_beq, List.any_cons, List.any_nil,
        Bool.or_false, Bool.or_eq_true, beq_iff_eq]
      tauto

/-- Witness for C1 at concrete inputs. -/
theorem points_exemption_C1_witness :
    points_condition "nanobanana" scenarioA_account = true ∧
    0 < account0.points := by
  constructor
  · exact points_exemption_C1.1 "nanobanana" scenarioA_account (Or.inl rfl)
  · exact points_exemption_C1.2.1 default_settings "jimeng-4.0" 0 [account0]
      0 account0 0 (by decide) (by decide) (by decide)

/-! ## Claim C2 -/

/-- An account banned until exactly the current instant (`ban_until = now
= 100`), with every other eligibility condition satisfied. -/
def c2_account : Account :=
  { account0 with is_banned := true, ban_until := some 100 }

/-- C2 counterexample: at the boundary instant `ban_until = now` the
selector's clause `ban_until < now` is false, so an account whose ban has
just expired (with the flag still set) is NOT eligible, contradicting the
claim that the boundary instant is included. -/
theorem ban_boundary_C2_counterexample :
    c2_account.is_banned = true ∧
    c2_account.ban_until = some 100 ∧
    (100 : ℤ) ≤ 100 ∧
    c2_account.session_id.isSome = true ∧
    usage_condition default_settings "jimeng-4.0" c2_account = true ∧
    points_condition "jimeng-4.0" c2_account = true ∧
    is_valid_account default_settings "jimeng-4.0" 100 c2_account = false ∧
    get_valid_account default_settings "jimeng-4.0" 100 [c2_account] 0
      = none := by
  decide

/-- C2 (amended): an account with `is_banned = true` whose `ban_until` is
STRICTLY in the past (`ban_until < now`) and whose other eligibility
conditions hold is eligible and is returned; at the exact boundary
`ban_until = now` the selector still excludes it (see the
counterexample). -/
theorem ban_expired_eligible_C2 (s : Settings) (m : String) (now t : ℤ)
    (rr : ℕ) (a : Account)
    (hban : a.is_banned = true) (hbu : a.ban_until = some t)
    (ht : t < now) (hsid : a.session_id.isSome = true)
    (husage : usage_condition s m a = true)
    (hpoints : points_condition m a = true) :
    is_valid_account s m now a = true ∧
    get_valid_account s m now [a] rr = some (a, 0) := by
  have hv : is_valid_account s m now a = true := by
    rw [is_valid_account_eq_true]
    refine ⟨?_, hsid, husage, hpoints⟩
    simp [sqlLt, hbu, ht]
  exact ⟨hv, get_valid_account_singleton rr hv⟩

/-- Witness for C2 (amended) at a concrete input: ban expired one second
ago. -/
theorem ban_expired_eligible_C2_witness :
    is_valid_account default_settings "jimeng-4.0" 101 c2_account = true ∧
    get_valid_account default_settings "jimeng-4.0" 101 [c2_account] 0
      = some (c2_account, 0) :=
  ban_expired_eligible_C2 default_settings "jimeng-4.0" 101 100 0 c2_account
    (by decide) (by decide) (by decide) (by decide) (by decide) (by decide)

/-! ## Claim C3 -/

/-- An otherwise healthy account whose `session_id` is the empty string
(reachable through the admin create/update endpoints, which accept any
string). -/
def c3_account : Account :=
  { account0 with session_id := some "" }

/-- C3 counterexample: the selector's clause is `session_id.isnot(None)`,
a non-NULL check, so an account whose `session_id` is the empty string IS
returned, contradicting the claim that returned accounts have a non-empty
`session_id`. -/
theorem empty_session_C3_counterexample :
    c3_account.session_id = some "" ∧
    get_valid_account default_settings "jimeng-4.0" 0 [c3_account] 0
      = some (c3_account, 0) := by
  decide

/-- C3 (amended): every account the selector returns has a non-NULL
`session_id` (the code checks `isnot(None)` only); the empty string is not
excluded. -/
theorem session_nonnull_C3 (s : Settings) (m : String) (now : ℤ)
    (accounts : List Account) (rr i : ℕ) (a : Account)
    (h : get_valid_account s m now accounts rr = some (a, i)) :
    a.session_id.isSome = true :=
  (is_valid_account_eq_true.mp (get_valid_account_is_valid h)).2.1

/-- Witness for C3 (amended) at a concrete input. -/
theorem session_nonnull_C3_witness : account0.session_id.isSome = true :=
  session_nonnull_C3 default_settings "jimeng-4.0" 0 [account0] 0 0 account0
    (by decide)

/-- `passthrough_response` rebuilds the response field by field, hence
returns it unchanged. -/
theorem passthrough_response_eq (r : UpstreamResponse) :
    passthrough_response r = r := rfl

/-! ## Claim C5 -/

/-- C5: on an upstream status in {429, 500, 524} the response is passed
through to the caller unchanged and the scheduled effect is the ban; the
scheduled ban (on the still-existing selected account) sets
`is_banned = true`, sets `ban_until` to `now + 4` hours — a strictly
future timestamp — and increments `error_count` by exactly 1, leaving
every per-model usage counter unchanged. -/
theorem ban_status_passthrough_C5 (r : UpstreamResponse) (now : ℤ)
    (a : Account)
    (h : ([429, 500, 524] : List ℕ).contains r.status = true) :
    handle_upstream_response r = (r, ProxyEffect.banAccount) ∧
    (proxy_scheduled_ban now a).is_banned = true ∧
    (proxy_scheduled_ban now a).ban_until = some (now + 4 * 3600) ∧
    now < now + 4 * 3600 ∧
    (proxy_scheduled_ban now a).error_count = a.error_count + 1 ∧
    (proxy_scheduled_ban now a).jimeng_4_0_count = a.jimeng_4_0_count ∧
    (proxy_scheduled_ban now a).jimeng_4_1_count = a.jimeng_4_1_count ∧
    (proxy_scheduled_ban now a).nanobanana_count = a.nanobanana_count ∧
    (proxy_scheduled_ban now a).nanobananapro_count
      = a.nanobananapro_count ∧
    (proxy_scheduled_ban now a).video_3_0_count = a.video_3_0_count := by
  constructor
  · unfold handle_upstream_response
    rw [h]
    simp [passthrough_response_eq]
  · unfold proxy_scheduled_ban ban_account_temp
    refine ⟨rfl, rfl, by omega, rfl, rfl, rfl, rfl, rfl, rfl⟩

/-- Witness for C5 at a concrete 429 response. -/
theorem ban_status_passthrough_C5_witness :
    handle_upstream_response ⟨429, [123], [("x", "y")]⟩
      = (⟨429, [123], [("x", "y")]⟩, ProxyEffect.banAccount) ∧
    (proxy_scheduled_ban 0 account0).error_count
      = account0.error_count + 1 := by
  have h := ban_status_passthrough_C5 ⟨429, [123], [("x", "y")]⟩ 0 account0
    (by decide)
  exact ⟨h.1, h.2.2.2.2.1⟩

/-! ## Claim C6 -/

/-- C6 (code bug): the proxy's ban path invokes `ban_account_temp` with no
duration argument, and the default in the Python signature is the literal
`4`, not a configuration value: the embedded `Settings` class
(src/config.py lines 9-33) has no ban-duration field and
`ban_account_temp` reads no configuration, even though the admin
settings-update schema (src/api.py line 91) advertises an
`ACCOUNT_BAN_DURATION_HOURS` field that nothing consumes.  Hence the
scheduled ban always ends exactly 4 hours after `now`, whatever the
configuration says. -/
theorem ban_duration_constant_C6 (now : ℤ) (a : Account) :
    proxy_scheduled_ban now a = ban_account_temp now a 4 ∧
    (proxy_scheduled_ban now a).ban_until = some (now + 4 * 3600) := by
  exact ⟨rfl, rfl⟩

/-! ## Claim C7 -/

/-- C7: every upstream status below 400 passes the response through and
schedules the usage increment; the scheduled update for model "video-3.0"
(on the still-existing selected account) increments `video_3_0_count` by
exactly 1 and leaves the other four per-model counters and `error_count`
unchanged, whatever the credit lookup returns; for a model name outside
the five known names no counter changes at all. -/
theorem video_usage_increment_C7 :
    (∀ r : UpstreamResponse, r.status < 400 →
        handle_upstream_response r = (r, ProxyEffect.incrementUsage)) ∧
    (∀ (credit : Option ℚ) (a : Account),
        (update_account_usage "video-3.0" credit a).video_3_0_count
          = a.video_3_0_count + 1 ∧
        (update_account_usage "video-3.0" credit a).jimeng_4_0_count
          = a.jimeng_4_0_count ∧
        (update_account_usage "video-3.0" credit a).jimeng_4_1_count
          = a.jimeng_4_1_count ∧
        (update_account_usage "video-3.0" credit a).nanobanana_count
          = a.nanobanana_count ∧
        (update_account_usage "video-3.0" credit a).nanobananapro_count
          = a.nanobananapro_count ∧
        (update_account_usage "video-3.0" credit a).error_count
          = a.error_count) ∧
    (∀ (m : String) (credit : Option ℚ) (a : Account),
        m ∉ (["jimeng-4.0", "jimeng-4.1", "nanobanana", "nanobananapro",
              "video-3.0"] : List String) →
        (update_account_usage m credit a).jimeng_4_0_count
          = a.jimeng_4_0_count ∧
        (update_account_usage m credit a).jimeng_4_1_count
          = a.jimeng_4_1_count ∧
        (update_account_usage m credit a).nanobanana_count
          = a.nanobanana_count ∧
        (update_account_usage m credit a).nanobananapro_count
          = a.nanobananapro_count ∧
        (update_account_usage m credit a).video_3_0_count
          = a.video_3_0_count ∧
        (update_account_usage m credit a).error_count = a.error_count) := by
  refine ⟨?_, ?_, ?_⟩
  · intro r hr
    have hc : ([429, 500, 524] : List ℕ).contains r.status = false := by
      simp only [List.contains_eq_any_beq, List.any_cons, List.any_nil,
        Bool.or_false, Bool.or_eq_false_iff, beq_eq_false_iff_ne, ne_eq]
      omega
    unfold handle_upstream_response
    rw [hc]
    simp [hr, passthrough_response_eq]
  · intro credit a
    cases credit <;>
      (unfold update_account_usage; simp; try (split <;> simp))
  · intro m credit a hm
    simp only [List.mem_cons, List.not_mem_nil, or_false, not_or] at hm
    obtain ⟨h1, h2, h3, h4, h5⟩ := hm
    cases credit <;>
      (unfold update_account_usage; simp [h1, h2, h3, h4, h5];
        try (split <;> simp))

/-- Witness for C7: a 200 response, and the model name "unknown" that the
proxy substitutes when no model can be extracted. -/
theorem video_usage_increment_C7_witness :
    handle_upstream_response ⟨200, [], []⟩
      = (⟨200, [], []⟩, ProxyEffect.incrementUsage) ∧
    (update_account_usage "video-3.0" (some 5) account0).video_3_0_count
      = account0.video_3_0_count + 1 ∧
    (update_account_usage "unknown" (some 5) account0).video_3_0_count
      = account0.video_3_0_count := by
  refine ⟨video_usage_increment_C7.1 ⟨200, [], []⟩ (by decide),
    (video_usage_increment_C7.2.1 (some 5) account0).1,
    (video_usage_increment_C7.2.2 "unknown" (some 5) account0
      (by decide)).2.2.2.2.1⟩

/-! ## Claim C8 -/

/-- C8 counterexample: the autonomous registration loop uses
src/main.py's own region helpers, whose recognized prefix set is
us- / eu- / asia-, so a completed registration with session_id
"hk-abc123" is stored with region "us" (the default) and the prefix NOT
stripped — contradicting the claim that EVERY registration workflow
stores region "hk" and session_id "abc123". -/
theorem region_prefix_C8_counterexample :
    (main_register_completed_account default_settings 0 "e@x.com" "pw"
        "hk-abc123").region = "us" ∧
    (main_register_completed_account default_settings 0 "e@x.com" "pw"
        "hk-abc123").session_id = some "hk-abc123" ∧
    ("us" : String) ≠ "hk" := by
  decide

/-- C8 (amended): on a completed registration with session_id
"hk-abc123", the on-demand endpoint (src/api.py, recognized prefixes
us- / hk- / jp- / sg-) stores region "hk" and session_id "abc123", while
the autonomous loop (src/main.py, recognized prefixes us- / eu- / asia-)
falls back to the default region "us" and stores the session_id with its
prefix intact. -/
theorem region_prefix_C8 (s : Settings) (now : ℤ)
    (email password : String) :
    (api_register_completed_account s now email password
        "hk-abc123").region = "hk" ∧
    (api_register_completed_account s now email password
        "hk-abc123").session_id = some "abc123" ∧
    (main_register_completed_account s now email password
        "hk-abc123").region = "us" ∧
    (main_register_completed_account s now email password
        "hk-abc123").session_id = some "hk-abc123" := by
  exact ⟨rfl, rfl, rfl, rfl⟩

/-! ## Claim C9 -/

/-- The dynamic field enumeration picks out exactly the five per-model
usage counters, never `error_count`. -/
theorem count_fields_eq :
    count_fields = ["jimeng_4_0_count", "jimeng_4_1_count",
      "nanobanana_count", "nanobananapro_count", "video_3_0_count"] := by
  decide

/-- C9: once a reset fires, the state records that day as
`last_reset_date`, and no further check on the same calendar day can fire
again — whatever reset time those checks read from configuration and
however often (every 30 seconds) they run; and the firing reset zeroes
exactly the five per-model usage counters of every account while leaving
`error_count` untouched. -/
theorem daily_reset_C9 (rh rm : ℕ) (last : Option ℤ) (now : ClockTime)
    (accounts : List Account)
    (hfire : reset_condition rh rm last now = true) :
    (reset_step rh rm last now accounts).1 = some now.day ∧
    (∀ checks : List (ℕ × ℕ × ClockTime),
        (∀ c ∈ checks, (c.2.2).day = now.day) →
        reset_fires (some now.day) checks
          = List.replicate checks.length false) ∧
    (reset_step rh rm last now accounts).2
      = accounts.map zero_usage_counts ∧
    (∀ a : Account,
        (zero_usage_counts a).jimeng_4_0_count = 0 ∧
        (zero_usage_counts a).jimeng_4_1_count = 0 ∧
        (zero_usage_counts a).nanobanana_count = 0 ∧
        (zero_usage_counts a).nanobananapro_count = 0 ∧
        (zero_usage_counts a).video_3_0_count = 0 ∧
        (zero_usage_counts a).error_count = a.error_count) := by
  refine ⟨by simp [reset_step, hfire], ?_, by simp [reset_step, hfire], ?_⟩
  · intro checks hsame
    induction checks with
    | nil => rfl
    | cons c cs ih =>
      have hday : (c.2.2).day = now.day := hsame c (List.mem_cons_self c cs)
      have hcond : reset_condition c.1 c.2.1 (some now.day) c.2.2
          = false := by
        unfold reset_condition
        rw [hday]
        simp
      rw [reset_fires, hcond]
      simp only [Bool.false_eq_true, if_false, List.length_cons,
        List.replicate_succ, List.cons.injEq]
      exact ⟨trivial, ih fun d hd => hsame d (List.mem_cons_of_mem c hd)⟩
  · intro a
    rw [zero_usage_counts, count_fields_eq]
    simp [set_count_zero, List.foldl]

/-- Witness for C9 at concrete inputs: reset time 00:00, a fresh state,
midnight on day 0, one account; two later same-day checks do not fire. -/
theorem daily_reset_C9_witness :
    reset_fires (some 0) [(0, 0, ⟨0, 0, 0⟩), (0, 0, ⟨0, 0, 1⟩)]
      = [false, false] ∧
    (zero_usage_counts account0).error_count = account0.error_count := by
  have h := daily_reset_C9 0 0 none ⟨0, 0, 0⟩ [account0] (by decide)
  have h2 := h.2.1 [(0, 0, ⟨0, 0, 0⟩), (0, 0, ⟨0, 0, 1⟩)] (by decide)
  exact ⟨by simpa using h2, (h.2.2.2 account0).2.2.2.2.2⟩

/-! ## Claim C10 -/

/-- C10: an account with `is_banned = true` and `ban_until` NULL (the
admin update endpoint can set `is_banned` alone) fails the selector's ban
clause — NULL never satisfies `ban_until < now` — so the selector never
returns it, and the unban sweep's filter `ban_until <= now` never matches
NULL either, so the sweep leaves the account unchanged forever. -/
theorem null_ban_until_C10 (s : Settings) (m : String) (now nowSweep : ℤ)
    (accounts : List Account) (rr i : ℕ) (a b : Account)
    (hban : a.is_banned = true) (hbu : a.ban_until = none) :
    is_valid_account s m now a = false ∧
    (get_valid_account s m now accounts rr = some (b, i) → b ≠ a) ∧
    unban_update nowSweep a = a ∧
    unban_sweep nowSweep [a] = [a] := by
  have hinv : is_valid_account s m now a = false := by
    unfold is_valid_account sqlLt
    rw [hban, hbu]
    rfl
  have hupd : unban_update nowSweep a = a := by
    unfold unban_update sqlLe
    rw [hbu]
    simp
  refine ⟨hinv, ?_, hupd, ?_⟩
  · intro hget heq
    have := get_valid_account_is_valid hget
    rw [heq, hinv] at this
    exact Bool.false_ne_true this
  · simp [unban_sweep, hupd]

/-- A concrete banned account with NULL `ban_until`. -/
def c10_account : Account :=
  { account0 with is_banned := true, ban_until := none }

/-- Witness for C10 at concrete inputs. -/
theorem null_ban_until_C10_witness :
    is_valid_account default_settings "jimeng-4.0" 0 c10_account = false ∧
    unban_update 0 c10_account = c10_account := by
  have h := null_ban_until_C10 default_settings "jimeng-4.0" 0 0
    [c10_account] 0 0 c10_account c10_account (by decide) (by decide)
  exact ⟨h.1, h.2.2.1⟩

/-! ## Claim C4 -/

/-- Adding a constant and reducing modulo `N` is injective on `[0, N)`. -/
theorem nat_mod_cancel {N c k₁ k₂ : ℕ} (h₁ : k₁ < N) (h₂ : k₂ < N)
    (h : (c + k₁) % N = (c + k₂) % N) : k₁ = k₂ := by
  have hmod : k₁ % N = k₂ % N := Nat.ModEq.add_left_cancel' c h
  rwa [Nat.mod_eq_of_lt h₁, Nat.mod_eq_of_lt h₂] at hmod

/-- Reading a list back by indices `0, ..., length - 1` returns the
list. -/
theorem map_getD_range (l : List Account) (d : Account) :
    (List.range l.length).map (fun k => l.getD k d) = l := by
  induction l with
  | nil => rfl
  | cons x xs ih =>
    rw [List.length_cons, List.range_succ_eq_map, List.map_cons,
      List.map_map]
    simp only [List.getD_cons_zero, Function.comp_def,
      List.getD_cons_succ]
    rw [ih]

/-- The images of `0, ..., N - 1` under `k ↦ (c + k) % N` are a
permutation of `0, ..., N - 1`. -/
theorem range_mod_perm (c N : ℕ) (hN : 0 < N) :
    ((List.range N).map (fun k => (c + k) % N)).Perm (List.range N) := by
  have hnd : ((List.range N).map (fun k => (c + k) % N)).Nodup := by
    refine List.Nodup.map_on ?_ (List.nodup_range N)
    intro x hx y hy hxy
    exact nat_mod_cancel (List.mem_range.mp hx) (List.mem_range.mp hy) hxy
  have hsub : ((List.range N).map (fun k => (c + k) % N))
      ⊆ List.range N := by
    intro x hx
    obtain ⟨k, _, rfl⟩ := List.mem_map.mp hx
    exact List.mem_range.mpr (Nat.mod_lt _ hN)
  exact (List.subperm_of_subset hnd hsub).perm_of_length_le (by simp)

/-- `n` threaded selector calls read the eligible list at the indices
`(i + 1 + k) % N` for `k = 0, ..., n - 1`. -/
theorem select_n_eq_map (s : Settings) (m : String) (now : ℤ)
    (accounts : List Account) (i n : ℕ)
    (h : (accounts.filter (is_valid_account s m now)).length ≠ 0) :
    select_n s m now accounts i n =
      (List.range n).map
        (fun k => (accounts.filter (is_valid_account s m now)).getD
          ((i + 1 + k)
            % (accounts.filter (is_valid_account s m now)).length)
          account0) := by
  induction n generalizing i with
  | zero => rfl
  | succ n ih =>
    rw [select_n]
    unfold get_valid_account
    simp only [dif_neg h]
    rw [ih ((i + 1) % (accounts.filter (is_valid_account s m now)).length)]
    rw [List.range_succ_eq_map, List.map_cons, List.map_map]
    congr 1
    · rw [List.getD_eq_get _ _ (Nat.mod_lt _ (Nat.pos_of_ne_zero h))]
    · apply List.map_congr_left
      intro k _
      simp only [Function.comp_def]
      congr 1
      rw [add_assoc ((i + 1)
        % (accounts.filter (is_valid_account s m now)).length) 1 k,
        Nat.mod_add_mod]
      congr 1
      omega

/-- C4: over a fixed, unmutated account table whose eligible set (as
recomputed identically by each call) has `N ≥ 1` members, `N` consecutive
selector calls threading the shared round-robin index return every
eligible account exactly once — the run is a permutation of the eligible
set, whatever the starting index. -/
theorem round_robin_C4 (s : Settings) (m : String) (now : ℤ)
    (accounts : List Account) (i : ℕ)
    (h : (accounts.filter (is_valid_account s m now)).length ≠ 0) :
    (select_n s m now accounts i
        (accounts.filter (is_valid_account s m now)).length).Perm
      (accounts.filter (is_valid_account s m now)) := by
  rw [select_n_eq_map s m now accounts i _ h]
  have hcomp : (fun k => (accounts.filter (is_valid_account s m now)).getD
        ((i + 1 + k)
          % (accounts.filter (is_valid_account s m now)).length)
        account0)
      = (fun j => (accounts.filter (is_valid_account s m now)).getD j
          account0)
        ∘ (fun k => (i + 1 + k)
            % (accounts.filter (is_valid_account s m now)).length) := rfl
  rw [hcomp, ← List.map_map]
  have hperm := range_mod_perm (i + 1)
    (accounts.filter (is_valid_account s m now)).length
    (Nat.pos_of_ne_zero h)
  exact (hperm.map _).trans
    (by rw [map_getD_range (accounts.filter (is_valid_account s m now))
      account0])

/-- Three distinct eligible accounts for the C4 witness. -/
def c4_accounts : List Account :=
  [{ account0 with id := 1 }, { account0 with id := 2 },
   { account0 with id := 3 }]

/-- Witness for C4 at a concrete three-account table: three consecutive
selections starting from index 0 return each account exactly once. -/
theorem round_robin_C4_witness :
    (select_n default_settings "jimeng-4.0" 0 c4_accounts 0
        (c4_accounts.filter
          (is_valid_account default_settings "jimeng-4.0" 0)).length).Perm
      (c4_accounts.filter
        (is_valid_account default_settings "jimeng-4.0" 0)) :=
  round_robin_C4 default_settings "jimeng-4.0" 0 c4_accounts 0 (by decide)

end Dreamina
